import Mathlib

/-!
Verification of the MySQL database secrets plugin (credential lifecycle engine).

Shallow embedding of the Go code in
src/sdk/database/dbplugin/v5/proto/database_grpc.pb.go (the `package mysql`
section): the lifecycle operations NewUser, UpdateUser, changeUserPassword,
DeleteUser, the username generation policy, and the transactional execution
engine executePreparedStatementsWithMap with its prepared-statement fallback.

Strings are modelled as lists of characters (`Str`), and the Go standard
library functions strings.Split / strings.TrimSpace / strings.Replace are
embedded as executable Lean functions over `Str`.  The database backend is
modelled as an oracle (`Backend`) that decides, per query, whether the
connection is available, whether BeginTx / Commit succeed, how PrepareContext
classifies the query, and whether execution of the query succeeds.  A
transaction accumulates the queries executed inside it; the queries become
observable (`Effects.applied`) only when Commit succeeds — the deferred
tx.Rollback() of the Go code discards them on every other exit path.
-/

namespace VaultMySQL

/-- Strings of the Go program, modelled as lists of characters. -/
abbrev Str := List Char

/-! ## Go standard library string primitives -/

/-- Model of Go strings.Split for a one-character separator (the engine only
ever splits on a semicolon): splits around each occurrence of the separator,
keeping empty fragments, as Go does. -/
def splitChar (sep : Char) : Str → List Str
  | [] => [[]]
  | c :: rest =>
    match splitChar sep rest with
    | [] => [[]]
    | h :: t => if c = sep then [] :: h :: t else (c :: h) :: t

/-- Whitespace test used by the model of Go strings.TrimSpace (the SQL
templates of this engine only contain ASCII whitespace). -/
def isSpaceChar (c : Char) : Bool := c = ' ' || c = '\t' || c = '\n' || c = '\r'

/-- Model of Go strings.TrimSpace: removes whitespace from both ends. -/
def TrimSpace (l : Str) : Str :=
  ((l.dropWhile isSpaceChar).reverse.dropWhile isSpaceChar).reverse

/-- Fuel-indexed worker for the model of Go strings.Replace with n = -1:
replaces the leftmost occurrences of `pat` one after the other,
non-overlapping.  Fuel at least the length of the subject string is always
sufficient, since every step consumes at least one character. -/
def ReplaceF (pat sub : Str) : Nat → Str → Str
  | _, [] => []
  | 0, l => l
  | fuel + 1, c :: rest =>
    if pat ≠ [] ∧ pat.isPrefixOf (c :: rest) then
      sub ++ ReplaceF pat sub fuel (rest.drop (pat.length - 1))
    else
      c :: ReplaceF pat sub fuel rest

/-- Model of Go strings.Replace(l, pat, sub, -1): replace every occurrence of
`pat` in `l` by `sub`, scanning left to right.  (For the empty pattern the
model is the identity; the engine only ever substitutes non-empty
placeholder tokens.) -/
def Replace (l pat sub : Str) : Str := ReplaceF pat sub l.length l

/-! ## Helpers of the repository that are not under src/ -/

/-- Semicolon separator used for statement splitting (source line 531, 614). -/
def semi : Char := ';'

/-- Modelled from the spec: strutil.ParseArbitraryStringSlice
(sdk/helper/strutil is not under src/).  Per spec section 4.2 the renderer
"splits each template string on top-level statement separators (currently
`;`), trims whitespace"; empty fragments are discarded by the calling loop
in the source. -/
def ParseArbitraryStringSlice (s : Str) (sep : Char) : List Str :=
  (splitChar sep s).map TrimSpace

/-- Opening placeholder delimiter, two left braces. -/
def braceL : Str := ("\x7b\x7b").data

/-- Closing placeholder delimiter, two right braces. -/
def braceR : Str := ("\x7d\x7d").data

/-- Modelled from the spec: dbutil.QueryHelper (sdk/database/helper/dbutil is
not under src/).  Per spec section 4.2 it "replaces every recognized
placeholder token with its substitution value; unrecognized tokens are left
verbatim".  The Go map iteration order is unspecified; the model fixes the
order of the association list (the placeholder keys used by the engine are
pairwise distinct). -/
def QueryHelper (tpl : Str) (m : List (Str × Str)) : Str :=
  m.foldl (fun acc kv => Replace acc (braceL ++ kv.1 ++ braceR) kv.2) tpl

/-! ## Constants of the source (package mysql) -/

/-- Source lines 361-364: the built-in default revocation template used by
DeleteUser when the request carries no statements. -/
def defaultMysqlRevocationStmts : Str :=
  ("\n\t\tREVOKE ALL PRIVILEGES, GRANT OPTION FROM \x27\x7b\x7bname\x7d\x7d\x27@\x27%\x27; \n\t\tDROP USER \x27\x7b\x7bname\x7d\x7d\x27@\x27%\x27\n\t").data

/-- Source lines 366-368: the built-in default rotation template used by
changeUserPassword when the caller supplies no statements. -/
def defaultMySQLRotateCredentialsSQL : Str :=
  ("\n\t\tALTER USER \x27\x7b\x7busername\x7d\x7d\x27@\x27%\x27 IDENTIFIED BY \x27\x7b\x7bpassword\x7d\x7d\x27;\n\t").data

/-- Source line 370. -/
def mySQLTypeName : Str := ("mysql").data

/-- Source line 374. -/
def MetadataLen : Nat := 10

/-- Source line 375. -/
def LegacyMetadataLen : Nat := 4

/-- Source line 376. -/
def UsernameLen : Nat := 32

/-- Source line 377. -/
def LegacyUsernameLen : Nat := 16

/-- Placeholder "\x7b\x7bname\x7d\x7d" substituted by DeleteUser (source line 540). -/
def nameTok : Str := ("\x7b\x7bname\x7d\x7d").data

/-- Placeholder "\x7b\x7busername\x7d\x7d" substituted by DeleteUser (source line 541). -/
def usernameTok : Str := ("\x7b\x7busername\x7d\x7d").data

/-! ## Backend oracle and engine state -/

/-- Classification of the error returned by tx.PrepareContext for a query, as
inspected by the source (lines 622-639): success, the MySQL driver error with
Number == 1295 ("this command is not supported in the prepared statement
protocol yet"), or any other error. -/
inductive PrepResult where
  | ok
  | err1295
  | errOther
deriving DecidableEq

/-- Oracle for the live database backend: whether m.getConnection succeeds,
whether db.BeginTx succeeds, whether tx.Commit succeeds, how tx.PrepareContext
classifies each query, and whether executing each query (through the prepared
handle, or directly via tx.ExecContext) succeeds. -/
structure Backend where
  connOk : Bool
  beginOk : Bool
  commitOk : Bool
  prep : Str → PrepResult
  execPrepared : Str → Bool
  execDirect : Str → Bool

/-- Outcome of the loop body of executePreparedStatementsWithMap for one
query (source lines 622-645):
* `execFail`: PrepareContext succeeded but stmt.ExecContext failed; the
  source closes the (valid) handle and returns the error (lines 641-643).
* `prepFail`: PrepareContext failed with an error other than MySQL error
  1295; the source returns the error (line 639).
* `fallbackNilClose`: PrepareContext failed with MySQL error 1295 and the
  direct tx.ExecContext fallback also failed; the source then invokes
  stmt.Close() on the nil handle returned by the failed PrepareContext
  (line 633), a nil-pointer dereference that panics in Go before the
  `return err` on line 634 can run.  The deferred tx.Rollback() and the
  deferred mutex unlock still fire during unwinding, so no partial state
  is observable, but the operation ends abnormally. -/
inductive StepErr where
  | execFail
  | prepFail
  | fallbackNilClose
deriving DecidableEq

/-- Errors of the lifecycle operations.  The Go code returns plain `error`
values; the model tags each return site of the source:
`emptyCreationStatement` is dbutil.ErrEmptyCreationStatement (line 456),
`genError` the wrapped username-generation error (line 500),
`noChangeRequested` the error of line 556, `emptyUsernameOrPassword` the
error of line 571, `connectionError` a getConnection failure,
`beginError` a BeginTx failure, `commitError` a Commit failure.  The index
carried by the three statement-level constructors is bookkeeping of the
model recording at which position of the rendered sequence the loop
aborted — it is NOT data carried by the program's errors: the Go code
returns the bare driver error unchanged (lines 634, 639, 643) and attaches
no statement index to it.  The error VALUES the program actually returns
are modelled separately by `DriverErrs` and `runQueriesExit` below. -/
inductive OpErr where
  | emptyCreationStatement
  | genError
  | noChangeRequested
  | emptyUsernameOrPassword
  | connectionError
  | beginError
  | commitError
  | execError (idx : Nat)
  | prepareError (idx : Nat)
  | execFallbackNilClose (idx : Nat)
deriving DecidableEq

/-- Observable footprint of one lifecycle call: whether username generation
ran, whether m.getConnection was invoked, whether a transaction was
successfully opened, and which queries are durably applied to the backend
after the call returns (non-empty only when the transaction committed; the
deferred rollback discards everything otherwise). -/
structure Effects where
  genCalled : Bool
  connCalled : Bool
  txOpened : Bool
  applied : List Str
deriving DecidableEq

/-! ## Statement rendering (source lines 613-620 and 530-541) -/

/-- Rendering of one template for executePreparedStatementsWithMap, exactly
as the loop of source lines 613-620: ParseArbitraryStringSlice on ";", then
per fragment strings.TrimSpace, skip if empty, then dbutil.QueryHelper. -/
def renderStmt (stmt : Str) (queryMap : List (Str × Str)) : List Str :=
  ((ParseArbitraryStringSlice stmt semi).map TrimSpace).filterMap fun query =>
    if query.length = 0 then none else some (QueryHelper query queryMap)

/-- Rendered query sequence of a whole statement list, in order. -/
def renderAll (statements : List Str) (queryMap : List (Str × Str)) : List Str :=
  statements.flatMap fun stmt => renderStmt stmt queryMap

/-- Rendering of one template for DeleteUser, exactly as the loop of source
lines 530-541: ParseArbitraryStringSlice on ";", strings.TrimSpace, skip if
empty, then strings.Replace of "\x7b\x7bname\x7d\x7d" and then of
"\x7b\x7busername\x7d\x7d" by the target username. -/
def renderDeleteStmt (stmt : Str) (username : Str) : List Str :=
  ((ParseArbitraryStringSlice stmt semi).map TrimSpace).filterMap fun query =>
    if query.length = 0 then none
    else some (Replace (Replace query nameTok username) usernameTok username)

/-- Rendered query sequence of a whole DeleteUser statement list. -/
def renderDeleteAll (statements : List Str) (username : Str) : List Str :=
  statements.flatMap fun stmt => renderDeleteStmt stmt username

/-! ## Transactional execution engine -/

/-- Decision tree of the loop body of executePreparedStatementsWithMap
(source lines 622-645) for one already-rendered query: `none` means the
query was executed inside the transaction and the loop continues (either
prepare-then-execute succeeded, or prepare failed with error 1295 and the
direct fallback execution succeeded). -/
def stepErrOf (b : Backend) (query : Str) : Option StepErr :=
  match b.prep query with
  | .ok => if b.execPrepared query then none else some .execFail
  | .err1295 => if b.execDirect query then none else some .fallbackNilClose
  | .errOther => some .prepFail

/-- Execution of the rendered query sequence inside the open transaction
(the loop of source lines 613-647).  On success, returns the queries
executed in the transaction; on failure, the zero-based index of the query
at which the loop aborted, with the abort kind.  In the Go code the
rendering of each query and its execution are interleaved; rendering is
pure, so running the pre-rendered sequence is observationally identical. -/
def runQueries (b : Backend) : List Str → Except (Nat × StepErr) (List Str)
  | [] => .ok []
  | query :: rest =>
    match stepErrOf b query with
    | some e => .error (0, e)
    | none =>
      match runQueries b rest with
      | .ok done => .ok (query :: done)
      | .error (i, e) => .error (i + 1, e)

/-- Execution of the rendered DeleteUser query sequence (loop of source
lines 530-547): every query runs directly through tx.ExecContext, no
prepared statements. -/
def runDirect (b : Backend) : List Str → Except Nat (List Str)
  | [] => .ok []
  | query :: rest =>
    if b.execDirect query then
      match runDirect b rest with
      | .ok done => .ok (query :: done)
      | .error i => .error (i + 1)
    else .error 0

/-- Error values of the backend driver: for each query, the opaque error
value that a failing tx.PrepareContext (resp. a failing execution) would
produce.  The Go engine never inspects these beyond the 1295 classification
(already captured by `Backend.prep`) and returns them unchanged. -/
structure DriverErrs where
  prepErr : Str → Str
  execErr : Str → Str

/-- How the loop of executePreparedStatementsWithMap exits, at the level of
the VALUE the Go function returns: `success` (the loop finished, line 648
onwards), `returnedErr e` (a plain `return err` with the bare driver error
`e`, lines 634, 639 and 643 — no statement index is attached to `e`), or
`panicked` (the nil-handle stmt.Close() of line 633 panics before line
634's `return err` can run). -/
inductive LoopExit where
  | success
  | returnedErr (e : Str)
  | panicked
deriving DecidableEq

/-- The loop of source lines 613-647 viewed at the level of the returned
error value: on the first failing query the bare driver error of that
query is returned unchanged (lines 634, 639, 643); no index, position or
other tag is added by the engine. -/
def runQueriesExit (b : Backend) (d : DriverErrs) : List Str → LoopExit
  | [] => .success
  | query :: rest =>
    match b.prep query with
    | .ok =>
      if b.execPrepared query then runQueriesExit b d rest
      else .returnedErr (d.execErr query)
    | .err1295 =>
      if b.execDirect query then runQueriesExit b d rest
      else .panicked
    | .errOther => .returnedErr (d.prepErr query)

/-- Source lines 593-654, executePreparedStatementsWithMap: lock (the mutex
serializes operations; the embedding is single-threaded), getConnection,
BeginTx, deferred rollback, the prepare/execute loop with the 1295 fallback,
then Commit.  The `applied` field of the effects is non-empty exactly when
Commit succeeded. -/
def executePreparedStatementsWithMap (b : Backend) (statements : List Str)
    (queryMap : List (Str × Str)) : Except OpErr Unit × Effects :=
  if b.connOk then
    if b.beginOk then
      match runQueries b (renderAll statements queryMap) with
      | .error (i, .execFail) => (.error (.execError i), ⟨false, true, true, []⟩)
      | .error (i, .prepFail) => (.error (.prepareError i), ⟨false, true, true, []⟩)
      | .error (i, .fallbackNilClose) => (.error (.execFallbackNilClose i), ⟨false, true, true, []⟩)
      | .ok done =>
        if b.commitOk then (.ok (), ⟨false, true, true, done⟩)
        else (.error .commitError, ⟨false, true, true, []⟩)
    else (.error .beginError, ⟨false, true, false, []⟩)
  else (.error .connectionError, ⟨false, true, false, []⟩)

/-! ## Lifecycle operations -/

/-- The MySQL plugin value (source lines 382-385); the connection producer
and its mutex are modelled by the Backend oracle. -/
structure MySQL where
  legacy : Bool

/-- Username generation inputs of the request (source, req.UsernameConfig). -/
structure UsernameConfig where
  displayName : Str
  roleName : Str

/-- NewUser request (source, newdbplugin.NewUserRequest): the statement
commands, username configuration, password and the rendered expiration
string req.Expiration.String(). -/
structure NewUserRequest where
  usernameConfig : UsernameConfig
  statements : List Str
  password : Str
  expiration : Str

/-- Password change payload of an UpdateUser request. -/
structure PasswordChange where
  newPassword : Str
  statements : List Str

/-- UpdateUser request (source, newdbplugin.UpdateUserRequest); the
expiration payload itself is never read by the source, only compared with
nil, so it is modelled as an optional opaque string. -/
structure UpdateUserRequest where
  username : Str
  password : Option PasswordChange
  expiration : Option Str

/-- DeleteUser request (source, newdbplugin.DeleteUserRequest). -/
structure DeleteUserRequest where
  username : Str
  statements : List Str

/-- Separator used between the human-readable username parts. -/
def underscoreSep : Str := ("_").data

/-- Modelled from the spec: credsutil.GenerateUsername with the option list
DisplayName(displayName, dispTrunc), RoleName(roleName, roleTrunc),
MaxLength(maxLen) (sdk/database/helper/credsutil is not under src/).  Per
spec section 4.3 it combines a prefix from the display name and a fragment
from the role name with a uniqueness suffix, "truncated to fit `maxLength`
total characters while preserving the uniqueness suffix intact (truncation
budget removed from the human-readable parts first)", and it "fails with
`GenerationError` only if even the minimum uniqueness suffix cannot fit,
never by silently truncating the suffix".  The uniqueness suffix (random
characters and timestamp in the real helper) is passed in as a parameter. -/
def GenerateUsername (displayName : Str) (dispTrunc : Nat) (roleName : Str)
    (roleTrunc : Nat) (maxLen : Nat) (suffix : Str) : Except OpErr Str :=
  if maxLen < suffix.length then .error .genError
  else
    .ok (((displayName.take dispTrunc ++ underscoreSep ++ roleName.take roleTrunc
            ++ underscoreSep).take (maxLen - suffix.length)) ++ suffix)

/-- Source lines 485-504, (m *MySQL).generateUsername: legacy mode selects
the 16/4 truncation class, otherwise 32/10. -/
def MySQL.generateUsername (m : MySQL) (suffix : Str) (cfg : UsernameConfig) :
    Except OpErr Str :=
  if m.legacy then
    GenerateUsername cfg.displayName LegacyUsernameLen cfg.roleName
      LegacyMetadataLen LegacyUsernameLen suffix
  else
    GenerateUsername cfg.displayName UsernameLen cfg.roleName
      MetadataLen UsernameLen suffix

/-- Key "name" of the substitution maps (source line 469). -/
def nameKey : Str := ("name").data

/-- Key "username" of the substitution maps (source line 470). -/
def usernameKey : Str := ("username").data

/-- Key "password" of the substitution maps (source line 471). -/
def passwordKey : Str := ("password").data

/-- Key "expiration" of the substitution map of NewUser (source line 472). -/
def expirationKey : Str := ("expiration").data

/-- Substitution map built by NewUser (source lines 468-473). -/
def newUserQueryMap (username password expiration : Str) : List (Str × Str) :=
  [(nameKey, username), (usernameKey, username), (passwordKey, password),
   (expirationKey, expiration)]

/-- Substitution map built by changeUserPassword (source lines 578-582). -/
def rotateQueryMap (username password : Str) : List (Str × Str) :=
  [(nameKey, username), (usernameKey, username), (passwordKey, password)]

/-- Source lines 454-483, (m *MySQL).NewUser: reject an empty command list
with dbutil.ErrEmptyCreationStatement before anything else, generate the
username, build the substitution map, then execute. -/
def MySQL.NewUser (m : MySQL) (b : Backend) (suffix : Str)
    (req : NewUserRequest) : Except OpErr Str × Effects :=
  if req.statements.length = 0 then
    (.error .emptyCreationStatement, ⟨false, false, false, []⟩)
  else
    match m.generateUsername suffix req.usernameConfig with
    | .error e => (.error e, ⟨true, false, false, []⟩)
    | .ok username =>
      match executePreparedStatementsWithMap b req.statements
          (newUserQueryMap username req.password req.expiration) with
      | (.error e, eff) => (.error e, ⟨true, eff.connCalled, eff.txOpened, eff.applied⟩)
      | (.ok _, eff) => (.ok username, ⟨true, eff.connCalled, eff.txOpened, eff.applied⟩)

/-- Source lines 569-588, (m *MySQL).changeUserPassword: reject an empty
username or password, default to the built-in rotation template when the
caller supplies no statements, then execute. -/
def changeUserPassword (b : Backend) (username password : Str)
    (rotateStatements : List Str) : Except OpErr Unit × Effects :=
  if username.length = 0 ∨ password.length = 0 then
    (.error .emptyUsernameOrPassword, ⟨false, false, false, []⟩)
  else
    executePreparedStatementsWithMap b
      (if rotateStatements.length = 0 then [defaultMySQLRotateCredentialsSQL]
       else rotateStatements)
      (rotateQueryMap username password)

/-- Source lines 554-567, (m *MySQL).UpdateUser: reject a request with
neither a password nor an expiration change; run changeUserPassword when a
password change is present (the Go code wraps its error with a "failed to
change password" prefix, which the model elides); an expiration-only change
returns success without touching the backend. -/
def UpdateUser (b : Backend) (req : UpdateUserRequest) :
    Except OpErr Unit × Effects :=
  if req.password.isNone && req.expiration.isNone then
    (.error .noChangeRequested, ⟨false, false, false, []⟩)
  else
    match req.password with
    | some pc => changeUserPassword b req.username pc.newPassword pc.statements
    | none => (.ok (), ⟨false, false, false, []⟩)

/-- Source lines 506-552, (m *MySQL).DeleteUser: lock, getConnection,
default to the built-in revocation template when the request carries no
statements, BeginTx, deferred rollback, the direct-execution loop with the
name and username substitutions, then Commit. -/
def DeleteUser (b : Backend) (req : DeleteUserRequest) :
    Except OpErr Unit × Effects :=
  if b.connOk then
    if b.beginOk then
      match runDirect b (renderDeleteAll
          (if req.statements.length = 0 then [defaultMysqlRevocationStmts]
           else req.statements) req.username) with
      | .error i => (.error (.execError i), ⟨false, true, true, []⟩)
      | .ok done =>
        if b.commitOk then (.ok (), ⟨false, true, true, done⟩)
        else (.error .commitError, ⟨false, true, true, []⟩)
    else (.error .beginError, ⟨false, true, false, []⟩)
  else (.error .connectionError, ⟨false, true, false, []⟩)

/-! ## Lemmas about the execution loops -/

lemma runQueries_ok_eq (b : Backend) :
    ∀ (l done : List Str), runQueries b l = .ok done → done = l := by
  intro l
  induction l with
  | nil =>
    intro done h
    simp only [runQueries] at h
    exact (Except.ok.injEq _ _).mp h |>.symm
  | cons q rest ih =>
    intro done h
    unfold runQueries at h
    cases hs : stepErrOf b q with
    | some e => rw [hs] at h; simp at h
    | none =>
      rw [hs] at h
      cases hr : runQueries b rest with
      | ok d =>
        rw [hr] at h
        simp only [Except.ok.injEq] at h
        rw [← h, ih d hr]
      | error ie =>
        rw [hr] at h
        cases ie with
        | mk i e => simp at h

lemma runQueries_all_ok (b : Backend) :
    ∀ (l : List Str), (∀ q ∈ l, stepErrOf b q = none) → runQueries b l = .ok l := by
  intro l
  induction l with
  | nil => intro _; rfl
  | cons q rest ih =>
    intro h
    have hq := h q (by simp)
    have hr := ih fun p hp => h p (by simp [hp])
    unfold runQueries
    rw [hq, hr]

lemma runQueries_first_err (b : Backend) (q : Str) (e : StepErr) (post : List Str)
    (hq : stepErrOf b q = some e) :
    ∀ (pre : List Str), (∀ p ∈ pre, stepErrOf b p = none) →
      runQueries b (pre ++ q :: post) = .error (pre.length, e) := by
  intro pre
  induction pre with
  | nil =>
    intro _
    simp only [List.nil_append, List.length_nil]
    unfold runQueries
    rw [hq]
  | cons p pre' ih =>
    intro h
    have hp := h p (by simp)
    have hr := ih fun x hx => h x (by simp [hx])
    show runQueries b (p :: (pre' ++ q :: post)) = _
    unfold runQueries
    rw [hp, hr]
    simp [List.length_cons]

lemma runQueriesExit_skip (b : Backend) (d : DriverErrs) (p : Str)
    (l : List Str) (hstep : stepErrOf b p = none) :
    runQueriesExit b d (p :: l) = runQueriesExit b d l := by
  unfold stepErrOf at hstep
  show (match b.prep p with
    | .ok => if b.execPrepared p then runQueriesExit b d l
             else .returnedErr (d.execErr p)
    | .err1295 => if b.execDirect p then runQueriesExit b d l else .panicked
    | .errOther => .returnedErr (d.prepErr p)) = runQueriesExit b d l
  cases hp : b.prep p with
  | ok =>
    rw [hp] at hstep
    by_cases hep : b.execPrepared p
    · rw [if_pos hep]
    · rw [if_neg hep] at hstep; simp at hstep
  | err1295 =>
    rw [hp] at hstep
    by_cases hed : b.execDirect p
    · rw [if_pos hed]
    · rw [if_neg hed] at hstep; simp at hstep
  | errOther =>
    rw [hp] at hstep
    simp at hstep

lemma runQueriesExit_pre (b : Backend) (d : DriverErrs) (rest : List Str) :
    ∀ (pre : List Str), (∀ p ∈ pre, stepErrOf b p = none) →
      runQueriesExit b d (pre ++ rest) = runQueriesExit b d rest := by
  intro pre
  induction pre with
  | nil => intro _; rfl
  | cons p pre' ih =>
    intro h
    show runQueriesExit b d (p :: (pre' ++ rest)) = _
    rw [runQueriesExit_skip b d p (pre' ++ rest) (h p (by simp))]
    exact ih fun x hx => h x (by simp [hx])

lemma runDirect_ok_eq (b : Backend) :
    ∀ (l done : List Str), runDirect b l = .ok done → done = l := by
  intro l
  induction l with
  | nil =>
    intro done h
    simp only [runDirect] at h
    exact (Except.ok.injEq _ _).mp h |>.symm
  | cons q rest ih =>
    intro done h
    unfold runDirect at h
    by_cases hs : b.execDirect q
    · rw [if_pos hs] at h
      cases hr : runDirect b rest with
      | ok d =>
        rw [hr] at h
        simp only [Except.ok.injEq] at h
        rw [← h, ih d hr]
      | error i => rw [hr] at h; simp at h
    · rw [if_neg hs] at h; simp at h

lemma runDirect_all_ok (b : Backend) :
    ∀ (l : List Str), (∀ q ∈ l, b.execDirect q = true) → runDirect b l = .ok l := by
  intro l
  induction l with
  | nil => intro _; rfl
  | cons q rest ih =>
    intro h
    have hq := h q (by simp)
    have hr := ih fun p hp => h p (by simp [hp])
    unfold runDirect
    rw [hq, hr]
    rfl

/-! ## Lemmas about the transactional engine -/

/-- Atomicity of executePreparedStatementsWithMap: after the call either
nothing is applied (the deferred rollback fired, or nothing ran) or the call
returned success and the full rendered sequence is applied. -/
lemma execPSWM_dichotomy (b : Backend) (S : List Str) (qm : List (Str × Str)) :
    (executePreparedStatementsWithMap b S qm).2.applied = [] ∨
      ((executePreparedStatementsWithMap b S qm).1 = .ok () ∧
       (executePreparedStatementsWithMap b S qm).2.applied = renderAll S qm) := by
  unfold executePreparedStatementsWithMap
  by_cases hc : b.connOk
  · rw [if_pos hc]
    by_cases hb : b.beginOk
    · rw [if_pos hb]
      cases hr : runQueries b (renderAll S qm) with
      | ok done =>
        have hde := runQueries_ok_eq b _ done hr
        subst hde
        by_cases hk : b.commitOk
        · right; simp [hk]
        · left; simp [hk]
      | error ie =>
        rcases ie with ⟨i, e⟩
        cases e <;> exact Or.inl rfl
    · rw [if_neg hb]; exact Or.inl rfl
  · rw [if_neg hc]; exact Or.inl rfl

/-- Happy path of executePreparedStatementsWithMap: when the connection,
transaction begin and commit all succeed and every rendered query executes
(directly or through the 1295 fallback), the call succeeds and applies the
whole rendered sequence. -/
lemma execPSWM_happy (b : Backend) (S : List Str) (qm : List (Str × Str))
    (hc : b.connOk = true) (hb : b.beginOk = true) (hk : b.commitOk = true)
    (hall : ∀ q ∈ renderAll S qm, stepErrOf b q = none) :
    executePreparedStatementsWithMap b S qm =
      (.ok (), ⟨false, true, true, renderAll S qm⟩) := by
  unfold executePreparedStatementsWithMap
  rw [if_pos hc, if_pos hb, runQueries_all_ok b _ hall]
  simp [hk]

/-- Error path of executePreparedStatementsWithMap: any error return leaves
nothing applied. -/
lemma execPSWM_err (b : Backend) (S : List Str) (qm : List (Str × Str))
    (e : OpErr) (h : (executePreparedStatementsWithMap b S qm).1 = .error e) :
    (executePreparedStatementsWithMap b S qm).2.applied = [] := by
  rcases execPSWM_dichotomy b S qm with h1 | ⟨h2, _⟩
  · exact h1
  · rw [h2] at h; exact absurd h (by simp)

/-- Abort of executePreparedStatementsWithMap at the first failing query,
with the index of that query in the rendered sequence. -/
lemma execPSWM_abort (b : Backend) (S : List Str) (qm : List (Str × Str))
    (pre : List Str) (q : Str) (post : List Str) (e : StepErr)
    (hc : b.connOk = true) (hb : b.beginOk = true)
    (hR : renderAll S qm = pre ++ q :: post)
    (hpre : ∀ p ∈ pre, stepErrOf b p = none)
    (hq : stepErrOf b q = some e) :
    executePreparedStatementsWithMap b S qm =
      (.error (match e with
        | .execFail => .execError pre.length
        | .prepFail => .prepareError pre.length
        | .fallbackNilClose => .execFallbackNilClose pre.length),
       ⟨false, true, true, []⟩) := by
  unfold executePreparedStatementsWithMap
  rw [if_pos hc, if_pos hb, hR, runQueries_first_err b q e post hq pre hpre]
  cases e <;> rfl

/-- The statement list DeleteUser actually runs: the request statements, or
the built-in default revocation template when none are supplied. -/
def deleteStmtsOf (req : DeleteUserRequest) : List Str :=
  if req.statements.length = 0 then [defaultMysqlRevocationStmts] else req.statements

/-- Atomicity of DeleteUser: after the call either nothing is applied or the
call returned success and the full rendered revocation sequence is applied. -/
lemma deleteUser_dichotomy (b : Backend) (req : DeleteUserRequest) :
    (DeleteUser b req).2.applied = [] ∨
      ((DeleteUser b req).1 = .ok () ∧
       (DeleteUser b req).2.applied = renderDeleteAll (deleteStmtsOf req) req.username) := by
  unfold DeleteUser deleteStmtsOf
  by_cases hc : b.connOk
  · rw [if_pos hc]
    by_cases hb : b.beginOk
    · rw [if_pos hb]
      cases hr : runDirect b (renderDeleteAll
          (if req.statements.length = 0 then [defaultMysqlRevocationStmts]
           else req.statements) req.username) with
      | ok done =>
        have hde := runDirect_ok_eq b _ done hr
        subst hde
        by_cases hk : b.commitOk
        · right; simp [hk]
        · left; simp [hk]
      | error i => exact Or.inl rfl
    · rw [if_neg hb]; exact Or.inl rfl
  · rw [if_neg hc]; exact Or.inl rfl

/-- Happy path of DeleteUser: when connection, begin and commit succeed and
every rendered revocation query executes, the call succeeds and applies the
whole rendered sequence. -/
lemma deleteUser_happy (b : Backend) (req : DeleteUserRequest)
    (hc : b.connOk = true) (hb : b.beginOk = true) (hk : b.commitOk = true)
    (hall : ∀ q ∈ renderDeleteAll (deleteStmtsOf req) req.username,
      b.execDirect q = true) :
    DeleteUser b req =
      (.ok (), ⟨false, true, true,
        renderDeleteAll (deleteStmtsOf req) req.username⟩) := by
  unfold DeleteUser
  unfold deleteStmtsOf at hall
  rw [if_pos hc, if_pos hb, runDirect_all_ok b _ hall]
  simp [hk, deleteStmtsOf]

/-- Error path of DeleteUser: any error return leaves nothing applied. -/
lemma deleteUser_err (b : Backend) (req : DeleteUserRequest) (e : OpErr)
    (h : (DeleteUser b req).1 = .error e) :
    (DeleteUser b req).2.applied = [] := by
  rcases deleteUser_dichotomy b req with h1 | ⟨h2, _⟩
  · exact h1
  · rw [h2] at h; exact absurd h (by simp)

/-! ## Lemmas about the Replace primitive -/

lemma replaceF_nil (pat sub : Str) (fuel : Nat) : ReplaceF pat sub fuel [] = [] := by
  cases fuel <;> rfl

lemma replaceF_zero (pat sub : Str) (l : Str) : ReplaceF pat sub 0 l = l := by
  cases l <;> rfl

lemma replaceF_succ (pat sub : Str) (fuel : Nat) (c : Char) (rest : Str) :
    ReplaceF pat sub (fuel + 1) (c :: rest) =
      if pat ≠ [] ∧ pat.isPrefixOf (c :: rest) then
        sub ++ ReplaceF pat sub fuel (rest.drop (pat.length - 1))
      else c :: ReplaceF pat sub fuel rest := rfl

/-- Replacement does not depend on fuel, as long as the fuel covers the
length of the subject string. -/
lemma replaceF_fuel (pat sub : Str) :
    ∀ (n : Nat) (l : Str) (f g : Nat), l.length ≤ n → l.length ≤ f →
      l.length ≤ g → ReplaceF pat sub f l = ReplaceF pat sub g l := by
  intro n
  induction n with
  | zero =>
    intro l f g hn _ _
    have hl : l = [] := List.length_eq_zero.mp (Nat.le_zero.mp hn)
    subst hl
    rw [replaceF_nil, replaceF_nil]
  | succ n ih =>
    intro l f g hn hf hg
    cases l with
    | nil => rw [replaceF_nil, replaceF_nil]
    | cons c rest =>
      simp only [List.length_cons] at hn hf hg
      cases f with
      | zero => omega
      | succ f' =>
        cases g with
        | zero => omega
        | succ g' =>
          rw [replaceF_succ, replaceF_succ]
          by_cases hcond : pat ≠ [] ∧ pat.isPrefixOf (c :: rest)
          · rw [if_pos hcond, if_pos hcond]
            congr 1
            apply ih
            · simp only [List.length_drop]; omega
            · simp only [List.length_drop]; omega
            · simp only [List.length_drop]; omega
          · rw [if_neg hcond, if_neg hcond]
            congr 1
            apply ih <;> omega

/-- Replacement leaves a string verbatim when the head character of the
pattern does not occur in it: no occurrence of the pattern can start
anywhere. -/
lemma replaceF_not_mem (p0 : Char) (pr sub : Str) :
    ∀ (l : Str) (fuel : Nat), p0 ∉ l → ReplaceF (p0 :: pr) sub fuel l = l := by
  intro l
  induction l with
  | nil => intro fuel _; exact replaceF_nil ..
  | cons c rest ih =>
    intro fuel h
    simp only [List.mem_cons, not_or] at h
    cases fuel with
    | zero => exact replaceF_zero ..
    | succ f =>
      rw [replaceF_succ]
      have hpre : ¬ (p0 :: pr).isPrefixOf (c :: rest) = true := by
        simp only [List.isPrefixOf, Bool.and_eq_true, beq_iff_eq]
        rintro ⟨hpc, -⟩
        exact h.1 hpc
      rw [if_neg fun hcond => hpre hcond.2]
      rw [ih f h.2]

/-- Unrecognized tokens are left verbatim: replacing a pattern whose head
character does not occur in the string is the identity. -/
lemma replace_not_mem (l : Str) (p0 : Char) (pr sub : Str) (h : p0 ∉ l) :
    Replace l (p0 :: pr) sub = l :=
  replaceF_not_mem p0 pr sub l l.length h

/-- Replacement across a known first occurrence: when the pattern's head
character does not occur in the prefix `A`, replacing in `A ++ pat ++ B`
substitutes at the occurrence and continues in `B`. -/
lemma replace_boundary (p0 : Char) (pr sub B : Str) :
    ∀ (A : Str) (fuel : Nat), p0 ∉ A →
      (A ++ (p0 :: pr) ++ B).length ≤ fuel →
      ReplaceF (p0 :: pr) sub fuel (A ++ (p0 :: pr) ++ B) =
        A ++ sub ++ Replace B (p0 :: pr) sub := by
  intro A
  induction A with
  | nil =>
    intro fuel _ hf
    simp only [List.nil_append] at hf ⊢
    cases fuel with
    | zero => simp at hf
    | succ f =>
      have hshape : (p0 :: pr) ++ B = p0 :: (pr ++ B) := rfl
      rw [hshape, replaceF_succ]
      rw [if_pos ⟨List.cons_ne_nil p0 pr, by
        rw [← hshape]
        exact List.isPrefixOf_iff_prefix.mpr (List.prefix_append _ _)⟩]
      have hdrop : (pr ++ B).drop ((p0 :: pr).length - 1) = B := by
        simp only [List.length_cons, Nat.add_sub_cancel]
        exact List.drop_left pr B
      rw [hdrop]
      unfold Replace
      congr 1
      apply replaceF_fuel (p0 :: pr) sub B.length B f B.length
      · exact Nat.le_refl _
      · simp only [List.length_cons, List.length_append] at hf; omega
      · exact Nat.le_refl _
  | cons a A' ih =>
    intro fuel hA hf
    simp only [List.mem_cons, not_or] at hA
    simp only [List.cons_append] at hf ⊢
    cases fuel with
    | zero => simp at hf
    | succ f =>
      rw [replaceF_succ]
      have hpre : ¬ (p0 :: pr).isPrefixOf (a :: (A' ++ (p0 :: pr) ++ B)) = true := by
        simp only [List.isPrefixOf, Bool.and_eq_true, beq_iff_eq]
        rintro ⟨hpc, -⟩
        exact hA.1 hpc
      rw [if_neg fun hcond => hpre hcond.2]
      have := ih f hA.2 (by simp only [List.length_cons] at hf; omega)
      simp only [List.cons_append] at this
      rw [this]

/-- First-occurrence replacement at the Replace level. -/
lemma replace_append (p0 : Char) (pr sub A B : Str) (hA : p0 ∉ A) :
    Replace (A ++ (p0 :: pr) ++ B) (p0 :: pr) sub =
      A ++ sub ++ Replace B (p0 :: pr) sub :=
  replace_boundary p0 pr sub B A (A ++ (p0 :: pr) ++ B).length hA (Nat.le_refl _)

/-! ## Lemmas about TrimSpace -/

lemma dropWhile_idem (p : Char → Bool) (l : Str) :
    (l.dropWhile p).dropWhile p = l.dropWhile p := by
  induction l with
  | nil => rfl
  | cons c t ih =>
    by_cases hc : p c
    · simp only [List.dropWhile_cons, if_pos hc, ih]
    · simp only [List.dropWhile_cons, if_neg hc]

lemma head_dropWhile_false (p : Char → Bool) :
    ∀ (l : Str) (c : Char) (t : Str), l.dropWhile p = c :: t → p c = false := by
  intro l
  induction l with
  | nil => intro c t h; simp at h
  | cons a l' ih =>
    intro c t h
    rw [List.dropWhile_cons] at h
    by_cases ha : p a
    · rw [if_pos ha] at h; exact ih c t h
    · rw [if_neg ha] at h
      injection h with h1 _
      subst h1
      simpa using ha

lemma dropWhile_reverse_of_trimmed (p : Char → Bool) (m : Str)
    (hm : m.dropWhile p = m) :
    ((m.reverse.dropWhile p).reverse).dropWhile p = (m.reverse.dropWhile p).reverse := by
  cases hy : (m.reverse.dropWhile p).reverse with
  | nil => rfl
  | cons c t =>
    have hsplit : m.reverse.takeWhile p ++ m.reverse.dropWhile p = m.reverse :=
      List.takeWhile_append_dropWhile p m.reverse
    have hm2 : m = (m.reverse.dropWhile p).reverse ++ (m.reverse.takeWhile p).reverse := by
      calc m = m.reverse.reverse := (List.reverse_reverse m).symm
        _ = (m.reverse.takeWhile p ++ m.reverse.dropWhile p).reverse := by rw [hsplit]
        _ = (m.reverse.dropWhile p).reverse ++ (m.reverse.takeWhile p).reverse := by
              rw [List.reverse_append]
    rw [hy] at hm2
    have hdc : m.dropWhile p = c :: (t ++ (m.reverse.takeWhile p).reverse) := by
      rw [hm]
      exact hm2.trans (List.cons_append c t _)
    have hpc : p c = false := head_dropWhile_false p m c _ hdc
    rw [List.dropWhile_cons, if_neg (by simp [hpc])]

/-- TrimSpace is idempotent: a trimmed fragment is unchanged by further
trimming. -/
lemma trimSpace_idem (l : Str) : TrimSpace (TrimSpace l) = TrimSpace l := by
  unfold TrimSpace
  rw [dropWhile_reverse_of_trimmed isSpaceChar (l.dropWhile isSpaceChar)
        (dropWhile_idem isSpaceChar l)]
  rw [List.reverse_reverse, dropWhile_idem]

/-! ## Shape of the renderer -/

lemma filterMap_render (g : Str → Str) :
    ∀ L : List Str,
      (L.filterMap fun q => if q.length = 0 then none else some (g q)) =
        (L.filter fun q => !(q.length == 0)).map g := by
  intro L
  induction L with
  | nil => rfl
  | cons q rest ih =>
    simp only [List.filterMap_cons, List.filter_cons]
    by_cases hq : q.length = 0
    · simpa [hq] using ih
    · simpa [hq] using ih

/-! ## Concrete backends and requests used by witnesses -/

/-- Backend on which connection, begin, commit succeed, every query prepares
and executes. -/
def allOkBackend : Backend :=
  ⟨true, true, true, fun _ => .ok, fun _ => true, fun _ => true⟩

/-- Backend on which every prepare fails with MySQL error 1295 and every
direct execution also fails. -/
def fallbackFailBackend : Backend :=
  ⟨true, true, true, fun _ => .err1295, fun _ => true, fun _ => false⟩

/-- NewUser request whose single statement template renders to zero
non-empty statements (a lone semicolon). -/
def c4Request : NewUserRequest :=
  ⟨⟨("dn").data, ("rn").data⟩, [(";").data], ("pw").data, ("exp").data⟩

/-! ## Claims -/

/-- Claim C7: for every UpdateUser request in which neither a password
change nor an expiration change is requested, the call returns the
"no change requested" validation error and performs no backend I/O: no
username generation, no getConnection call, no transaction, nothing
applied. -/
theorem claim_C7_noop_update_rejected (b : Backend) (req : UpdateUserRequest)
    (hp : req.password = none) (he : req.expiration = none) :
    UpdateUser b req = (.error .noChangeRequested, ⟨false, false, false, []⟩) := by
  unfold UpdateUser
  rw [hp, he]
  rfl

/-- Witness for claim C7 at a concrete request. -/
theorem claim_C7_witness :
    UpdateUser allOkBackend ⟨("someuser").data, none, none⟩ =
      (.error .noChangeRequested, ⟨false, false, false, []⟩) :=
  claim_C7_noop_update_rejected allOkBackend ⟨("someuser").data, none, none⟩ rfl rfl

/-- Claim C8: for every UpdateUser request that requests only an expiration
change (no password change), the call returns success while performing no
backend mutation: no connection is obtained, no transaction is opened and
no SQL statement is executed against the backend. -/
theorem claim_C8_expiration_only_noop (b : Backend) (req : UpdateUserRequest)
    (ex : Str) (hp : req.password = none) (he : req.expiration = some ex) :
    UpdateUser b req = (.ok (), ⟨false, false, false, []⟩) := by
  unfold UpdateUser
  rw [hp, he]
  rfl

/-- Witness for claim C8 at a concrete request. -/
theorem claim_C8_witness :
    UpdateUser allOkBackend ⟨("someuser").data, none, some (("2020-01-01").data)⟩ =
      (.ok (), ⟨false, false, false, []⟩) :=
  claim_C8_expiration_only_noop allOkBackend
    ⟨("someuser").data, none, some (("2020-01-01").data)⟩ (("2020-01-01").data) rfl rfl

/-- Claim C4, amended: NewUser fails fast with
dbutil.ErrEmptyCreationStatement — before generating a username and before
any backend I/O — exactly for a statement list of length zero; a non-empty
list of templates that all render to nothing passes this check (see the
counterexample). -/
theorem claim_C4_empty_statements (m : MySQL) (b : Backend) (suffix : Str)
    (req : NewUserRequest) (h : req.statements = []) :
    MySQL.NewUser m b suffix req =
      (.error .emptyCreationStatement, ⟨false, false, false, []⟩) := by
  unfold MySQL.NewUser
  rw [h]
  rfl

/-- Witness for the amended claim C4 at a concrete request. -/
theorem claim_C4_witness :
    MySQL.NewUser ⟨false⟩ allOkBackend (("SFX").data)
        ⟨⟨("dn").data, ("rn").data⟩, [], ("pw").data, ("exp").data⟩ =
      (.error .emptyCreationStatement, ⟨false, false, false, []⟩) :=
  claim_C4_empty_statements ⟨false⟩ allOkBackend (("SFX").data)
    ⟨⟨("dn").data, ("rn").data⟩, [], ("pw").data, ("exp").data⟩ rfl

/-- Counterexample to claim C4 as stated: a NewUser request whose statement
set contains zero non-empty statements — one template, a lone semicolon,
rendering to nothing after splitting and trimming — does not fail with the
validation error: the code only checks the length of the command list
(source line 455), so it generates a username, opens a transaction,
executes nothing and commits, returning the generated username. -/
theorem claim_C4_counterexample :
    (MySQL.NewUser ⟨false⟩ allOkBackend (("SFX").data) c4Request).1 =
        .ok (("dn_rn_SFX").data) ∧
      (MySQL.NewUser ⟨false⟩ allOkBackend (("SFX").data) c4Request).2 =
        ⟨true, true, true, []⟩ :=
  ⟨rfl, rfl⟩

/-- Claim C3, evaluation at the failing input: when PrepareContext fails
with MySQL error 1295 and the direct fallback tx.ExecContext also fails,
the loop reaches the stmt.Close() invocation on the nil handle returned by
the failed PrepareContext (source line 633) — the `execFallbackNilClose`
outcome of the model, a nil-pointer dereference that panics in Go.  The
claimed property (Close is never invoked on a nil prepared-statement
handle) is therefore violated by the code on this input. -/
theorem claim_C3_nil_close_eval :
    executePreparedStatementsWithMap fallbackFailBackend
        [("GRANT SELECT ON *.* TO x").data] [] =
      (.error (.execFallbackNilClose 0), ⟨false, true, true, []⟩) := rfl

/-- Length bound, suffix preservation and exact failure condition of the
spec-modelled GenerateUsername. -/
lemma generateUsername_spec (dn : Str) (dt : Nat) (rn : Str) (rt : Nat)
    (maxLen : Nat) (suffix : Str) :
    (∀ u, GenerateUsername dn dt rn rt maxLen suffix = .ok u →
        u.length ≤ maxLen ∧ List.IsSuffix suffix u) ∧
      (GenerateUsername dn dt rn rt maxLen suffix = .error .genError ↔
        maxLen < suffix.length) := by
  unfold GenerateUsername
  by_cases h : maxLen < suffix.length
  · rw [if_pos h]
    constructor
    · intro u hu; simp at hu
    · simpa using h
  · rw [if_neg h]
    constructor
    · intro u hu
      simp only [Except.ok.injEq] at hu
      subst hu
      constructor
      · rw [List.length_append, List.length_take]
        have hmin : min (maxLen - suffix.length)
            ((dn.take dt ++ underscoreSep ++ rn.take rt ++ underscoreSep).length) ≤
              maxLen - suffix.length := Nat.min_le_left _ _
        omega
      · exact ⟨_, rfl⟩
    · constructor
      · intro hcontr; simp at hcontr
      · intro hcontr; omega

/-- Claim C6: for every username-generation input, the generated username
never exceeds 16 characters in legacy mode and never exceeds 32 characters
otherwise, always carries the uniqueness suffix intact (and the suffix is
non-empty), and generation fails with the generation error exactly when
even the uniqueness suffix alone cannot fit within the maximum length —
never by truncating the suffix. -/
theorem claim_C6_username_policy (m : MySQL) (cfg : UsernameConfig)
    (suffix : Str) (hs : suffix ≠ []) :
    (∀ u, m.generateUsername suffix cfg = .ok u →
        u.length ≤ (if m.legacy then 16 else 32) ∧ suffix ≠ [] ∧
        List.IsSuffix suffix u) ∧
      (m.generateUsername suffix cfg = .error .genError ↔
        (if m.legacy then 16 else 32) < suffix.length) := by
  obtain ⟨leg⟩ := m
  cases leg
  · obtain ⟨h1, h2⟩ := generateUsername_spec cfg.displayName UsernameLen
      cfg.roleName MetadataLen UsernameLen suffix
    exact ⟨fun u hu => ⟨(h1 u hu).1, hs, (h1 u hu).2⟩, h2⟩
  · obtain ⟨h1, h2⟩ := generateUsername_spec cfg.displayName LegacyUsernameLen
      cfg.roleName LegacyMetadataLen LegacyUsernameLen suffix
    exact ⟨fun u hu => ⟨(h1 u hu).1, hs, (h1 u hu).2⟩, h2⟩

/-- Witness for claim C6: a concrete legacy-mode generation, 16 characters
with the 10-character uniqueness suffix intact. -/
theorem claim_C6_witness :
    MySQL.generateUsername ⟨true⟩ (("0123456789").data)
        ⟨("admin").data, ("ro").data⟩ = .ok (("admin_0123456789").data) ∧
      List.length (("admin_0123456789").data) ≤ 16 ∧
      List.IsSuffix (("0123456789").data) (("admin_0123456789").data) := by
  have h := (claim_C6_username_policy ⟨true⟩ ⟨("admin").data, ("ro").data⟩
      (("0123456789").data) (by decide)).1 (("admin_0123456789").data) rfl
  exact ⟨rfl, h.1, h.2.2⟩

/-- Backend on which every prepare reports MySQL error 1295 and every direct
execution succeeds: every statement goes through the fallback path. -/
def fallbackOkBackend : Backend :=
  ⟨true, true, true, fun _ => .err1295, fun _ => false, fun _ => true⟩

/-- Backend on which everything succeeds except executing one specific
prepared query. -/
def c5Backend : Backend :=
  ⟨true, true, true, fun _ => .ok,
   fun q => !(q == ("DROP USER y").data), fun _ => true⟩

/-- Claim C2: a statement whose prepare fails with the backend's "not
preparable" condition (MySQL error 1295) is executed directly without
preparing; if that direct execution succeeds the loop continues to the next
statement (first conjunct); an operation all of whose rendered statements
execute — directly or through that fallback — still commits with everything
applied (second conjunct); and a prepare failure with any other error
aborts the whole operation with nothing applied (third conjunct). -/
theorem claim_C2_prepare_fallback (b : Backend) :
    (∀ (q : Str) (rest done : List Str),
        b.prep q = .err1295 → b.execDirect q = true →
        runQueries b rest = .ok done →
        runQueries b (q :: rest) = .ok (q :: done)) ∧
      (∀ (S : List Str) (qm : List (Str × Str)),
        b.connOk = true → b.beginOk = true → b.commitOk = true →
        (∀ q ∈ renderAll S qm, stepErrOf b q = none) →
        executePreparedStatementsWithMap b S qm =
          (.ok (), ⟨false, true, true, renderAll S qm⟩)) ∧
      (∀ (S : List Str) (qm : List (Str × Str)) (pre : List Str) (q : Str)
          (post : List Str),
        b.connOk = true → b.beginOk = true →
        renderAll S qm = pre ++ q :: post →
        (∀ p ∈ pre, stepErrOf b p = none) → b.prep q = .errOther →
        executePreparedStatementsWithMap b S qm =
          (.error (.prepareError pre.length), ⟨false, true, true, []⟩)) := by
  refine ⟨?_, ?_, ?_⟩
  · intro q rest done hp he hr
    have hq : stepErrOf b q = none := by simp [stepErrOf, hp, he]
    unfold runQueries
    rw [hq, hr]
  · intro S qm hc hb hk hall
    exact execPSWM_happy b S qm hc hb hk hall
  · intro S qm pre q post hc hb hR hpre hp
    have hq : stepErrOf b q = some .prepFail := by simp [stepErrOf, hp]
    exact execPSWM_abort b S qm pre q post .prepFail hc hb hR hpre hq

/-- Witness for claim C2: on a backend where every prepare reports error
1295, a statement still executes through the fallback and the operation
commits with the statement applied. -/
theorem claim_C2_witness :
    executePreparedStatementsWithMap fallbackOkBackend
        [("CREATE USER x").data] [] =
      (.ok (), ⟨false, true, true, [("CREATE USER x").data]⟩) :=
  (claim_C2_prepare_fallback fallbackOkBackend).2.1
    [("CREATE USER x").data] [] rfl rfl rfl (by decide)

/-- Driver error values for the C5 scenario: the driver reports its own
message for a failing statement, the same message wherever the statement
occurs in the sequence (the driver knows nothing about positions). -/
def uniformErrs : DriverErrs :=
  ⟨fun _ => ("Error 1064: syntax error").data,
   fun _ => ("Error 1064: syntax error").data⟩

/-- Counterexample to claim C5 as stated: the same failing statement at
rendered index 0 (first run) and at rendered index 1 (second run) makes the
engine return the IDENTICAL bare driver error value in both runs — lines
634, 639 and 643 of the source are plain `return err` and attach no
statement index — so the returned error is not "tagged with the index of
the failing statement": an error tagged with the failing index would have
to differ between an index-0 failure and an index-1 failure.  The first
two conjuncts locate the aborts at indices 0 and 1; the last two show the
returned error values coincide. -/
theorem claim_C5_counterexample :
    runQueries c5Backend (renderAll [("DROP USER y").data] []) =
        .error (0, .execFail) ∧
      runQueries c5Backend
          (renderAll [("CREATE USER x; DROP USER y").data] []) =
        .error (1, .execFail) ∧
      runQueriesExit c5Backend uniformErrs
          (renderAll [("DROP USER y").data] []) =
        .returnedErr (("Error 1064: syntax error").data) ∧
      runQueriesExit c5Backend uniformErrs
          (renderAll [("CREATE USER x; DROP USER y").data] []) =
        .returnedErr (("Error 1064: syntax error").data) :=
  ⟨rfl, rfl, rfl, rfl⟩

/-- Claim C5, amended: when every rendered statement before position k
succeeds and the statement at position k fails for a reason other than the
"not preparable" condition — it prepares but fails to execute, or its
prepare fails with an error other than 1295 — the operation aborts at that
statement (the model records the abort position k = pre.length; rollback
fires and nothing is applied) and the value returned is the bare driver
error of the failing statement, unchanged; no statement index is attached
to the returned error. -/
theorem claim_C5_abort_bare_error (b : Backend) (d : DriverErrs)
    (S : List Str) (qm : List (Str × Str)) (pre : List Str) (q : Str)
    (post : List Str) (hc : b.connOk = true) (hb : b.beginOk = true)
    (hR : renderAll S qm = pre ++ q :: post)
    (hpre : ∀ p ∈ pre, stepErrOf b p = none) :
    (b.prep q = .ok → b.execPrepared q = false →
      executePreparedStatementsWithMap b S qm =
          (.error (.execError pre.length), ⟨false, true, true, []⟩) ∧
        runQueriesExit b d (renderAll S qm) = .returnedErr (d.execErr q)) ∧
      (b.prep q = .errOther →
        executePreparedStatementsWithMap b S qm =
            (.error (.prepareError pre.length), ⟨false, true, true, []⟩) ∧
          runQueriesExit b d (renderAll S qm) = .returnedErr (d.prepErr q)) := by
  constructor
  · intro hp he
    have hq : stepErrOf b q = some .execFail := by simp [stepErrOf, hp, he]
    refine ⟨execPSWM_abort b S qm pre q post .execFail hc hb hR hpre hq, ?_⟩
    rw [hR, runQueriesExit_pre b d (q :: post) pre hpre]
    unfold runQueriesExit
    rw [hp, if_neg (by simp [he])]
  · intro hp
    have hq : stepErrOf b q = some .prepFail := by simp [stepErrOf, hp]
    refine ⟨execPSWM_abort b S qm pre q post .prepFail hc hb hR hpre hq, ?_⟩
    rw [hR, runQueriesExit_pre b d (q :: post) pre hpre]
    unfold runQueriesExit
    rw [hp]

/-- Witness for the amended claim C5: two rendered statements, the second
one fails to execute; the operation aborts at position 1 with nothing
applied, and the value returned is the failing statement's bare driver
error. -/
theorem claim_C5_witness :
    executePreparedStatementsWithMap c5Backend
        [("CREATE USER x; DROP USER y").data] [] =
        (.error (.execError 1), ⟨false, true, true, []⟩) ∧
      runQueriesExit c5Backend uniformErrs
          (renderAll [("CREATE USER x; DROP USER y").data] []) =
        .returnedErr (("Error 1064: syntax error").data) :=
  (claim_C5_abort_bare_error c5Backend uniformErrs
      [("CREATE USER x; DROP USER y").data] [] [("CREATE USER x").data]
      (("DROP USER y").data) [] rfl rfl (by decide) (by decide)).1 rfl rfl

/-- Claim C1: for every lifecycle operation (NewUser, UpdateUser with a
password change, DeleteUser) the observable backend state after the call is
all-or-nothing: either nothing is applied (any statement failure triggers
the deferred rollback before the error is returned) or the call succeeded
and the full rendered statement sequence is applied — never a proper
prefix (first three conjuncts); and when every rendered statement succeeds
and the backend accepts the commit, the transaction commits with everything
applied (last two conjuncts). -/
theorem claim_C1_atomicity :
    (∀ (m : MySQL) (b : Backend) (suffix : Str) (req : NewUserRequest),
        (MySQL.NewUser m b suffix req).2.applied = [] ∨
          ∃ u, (MySQL.NewUser m b suffix req).1 = .ok u ∧
            (MySQL.NewUser m b suffix req).2.applied =
              renderAll req.statements
                (newUserQueryMap u req.password req.expiration)) ∧
      (∀ (b : Backend) (req : UpdateUserRequest) (pc : PasswordChange),
        req.password = some pc →
        ((UpdateUser b req).2.applied = [] ∨
          ((UpdateUser b req).1 = .ok () ∧
            (UpdateUser b req).2.applied =
              renderAll
                (if pc.statements.length = 0 then
                  [defaultMySQLRotateCredentialsSQL] else pc.statements)
                (rotateQueryMap req.username pc.newPassword)))) ∧
      (∀ (b : Backend) (req : DeleteUserRequest),
        (DeleteUser b req).2.applied = [] ∨
          ((DeleteUser b req).1 = .ok () ∧
            (DeleteUser b req).2.applied =
              renderDeleteAll (deleteStmtsOf req) req.username)) ∧
      (∀ (b : Backend) (S : List Str) (qm : List (Str × Str)),
        b.connOk = true → b.beginOk = true → b.commitOk = true →
        (∀ q ∈ renderAll S qm, stepErrOf b q = none) →
        executePreparedStatementsWithMap b S qm =
          (.ok (), ⟨false, true, true, renderAll S qm⟩)) ∧
      (∀ (b : Backend) (req : DeleteUserRequest),
        b.connOk = true → b.beginOk = true → b.commitOk = true →
        (∀ q ∈ renderDeleteAll (deleteStmtsOf req) req.username,
          b.execDirect q = true) →
        DeleteUser b req =
          (.ok (), ⟨false, true, true,
            renderDeleteAll (deleteStmtsOf req) req.username⟩)) := by
  refine ⟨?_, ?_, ?_, ?_, ?_⟩
  · intro m b suffix req
    by_cases hlen : req.statements.length = 0
    · left
      have hNU : MySQL.NewUser m b suffix req =
          (.error .emptyCreationStatement, ⟨false, false, false, []⟩) := by
        unfold MySQL.NewUser
        rw [if_pos hlen]
      rw [hNU]
    · cases hg : m.generateUsername suffix req.usernameConfig with
      | error e =>
        left
        have hNU : MySQL.NewUser m b suffix req =
            (.error e, ⟨true, false, false, []⟩) := by
          unfold MySQL.NewUser
          rw [if_neg hlen, hg]
        rw [hNU]
      | ok u =>
        have hNU : MySQL.NewUser m b suffix req =
            (match executePreparedStatementsWithMap b req.statements
                (newUserQueryMap u req.password req.expiration) with
              | (.error e, eff) =>
                (.error e, ⟨true, eff.connCalled, eff.txOpened, eff.applied⟩)
              | (.ok _, eff) =>
                (.ok u, ⟨true, eff.connCalled, eff.txOpened, eff.applied⟩)) := by
          unfold MySQL.NewUser
          rw [if_neg hlen, hg]
        rw [hNU]
        have hdi := execPSWM_dichotomy b req.statements
          (newUserQueryMap u req.password req.expiration)
        rcases hd : executePreparedStatementsWithMap b req.statements
            (newUserQueryMap u req.password req.expiration) with ⟨res, eff⟩
        rw [hd] at hdi
        cases res with
        | error e =>
          left
          rcases hdi with h | ⟨h, _⟩
          · exact h
          · exact absurd h (by simp)
        | ok v =>
          rcases hdi with h | ⟨_, h2⟩
          · left; exact h
          · right; exact ⟨u, rfl, h2⟩
  · intro b req pc hp
    have hcall : UpdateUser b req =
        changeUserPassword b req.username pc.newPassword pc.statements := by
      unfold UpdateUser
      rw [hp]
      rfl
    rw [hcall]
    unfold changeUserPassword
    by_cases hup : req.username.length = 0 ∨ pc.newPassword.length = 0
    · rw [if_pos hup]; left; rfl
    · rw [if_neg hup]
      exact execPSWM_dichotomy b _ _
  · intro b req
    exact deleteUser_dichotomy b req
  · intro b S qm hc hb hk hall
    exact execPSWM_happy b S qm hc hb hk hall
  · intro b req hc hb hk hall
    exact deleteUser_happy b req hc hb hk hall

/-- Witness for claim C1: a concrete DeleteUser call on an all-succeeding
backend commits with exactly its rendered statement applied. -/
theorem claim_C1_witness :
    DeleteUser allOkBackend ⟨("u1").data, [("DROP USER u1").data]⟩ =
      (.ok (), ⟨false, true, true, [("DROP USER u1").data]⟩) :=
  claim_C1_atomicity.2.2.2.2 allOkBackend
    ⟨("u1").data, [("DROP USER u1").data]⟩ rfl rfl rfl (by decide)

/-! ## Claim C9: the default revocation template of DeleteUser -/

/-- Opening brace character of placeholder tokens. -/
def braceOpen : Char := '\x7b'

/-- Text of the first default revocation fragment before the name token. -/
def revokeHead : Str := ("REVOKE ALL PRIVILEGES, GRANT OPTION FROM \x27").data

/-- Text of the second default revocation fragment before the name token. -/
def dropHead : Str := ("DROP USER \x27").data

/-- Text of both default revocation fragments after the name token. -/
def atSuffix : Str := ("\x27@\x27%\x27").data

/-- Tail of the name token after its first character. -/
def nameTokTail : Str := ("\x7bname\x7d\x7d").data

/-- Tail of the username token after its first character. -/
def usernameTokTail : Str := ("\x7busername\x7d\x7d").data

lemma renderDefaultRevocation (u : Str) (hu : braceOpen ∉ u) :
    renderDeleteAll [defaultMysqlRevocationStmts] u =
      [revokeHead ++ u ++ atSuffix, dropHead ++ u ++ atSuffix] := by
  have hfrag : (ParseArbitraryStringSlice defaultMysqlRevocationStmts semi).map
      TrimSpace = [revokeHead ++ nameTok ++ atSuffix,
        dropHead ++ nameTok ++ atSuffix] := by decide
  have hmem1 : braceOpen ∉ revokeHead ++ u ++ atSuffix := by
    intro hmem
    rcases List.mem_append.mp hmem with h | h
    · rcases List.mem_append.mp h with h2 | h2
      · exact absurd h2 (by decide)
      · exact hu h2
    · exact absurd h (by decide)
  have hmem2 : braceOpen ∉ dropHead ++ u ++ atSuffix := by
    intro hmem
    rcases List.mem_append.mp hmem with h | h
    · rcases List.mem_append.mp h with h2 | h2
      · exact absurd h2 (by decide)
      · exact hu h2
    · exact absurd h (by decide)
  have hsub1 : Replace (Replace (revokeHead ++ nameTok ++ atSuffix) nameTok u)
      usernameTok u = revokeHead ++ u ++ atSuffix := by
    rw [show nameTok = braceOpen :: nameTokTail from rfl,
        replace_append braceOpen nameTokTail u revokeHead atSuffix (by decide),
        replace_not_mem atSuffix braceOpen nameTokTail u (by decide),
        show usernameTok = braceOpen :: usernameTokTail from rfl]
    exact replace_not_mem _ braceOpen usernameTokTail u hmem1
  have hsub2 : Replace (Replace (dropHead ++ nameTok ++ atSuffix) nameTok u)
      usernameTok u = dropHead ++ u ++ atSuffix := by
    rw [show nameTok = braceOpen :: nameTokTail from rfl,
        replace_append braceOpen nameTokTail u dropHead atSuffix (by decide),
        replace_not_mem atSuffix braceOpen nameTokTail u (by decide),
        show usernameTok = braceOpen :: usernameTokTail from rfl]
    exact replace_not_mem _ braceOpen usernameTokTail u hmem2
  unfold renderDeleteAll renderDeleteStmt
  rw [List.flatMap_cons, List.flatMap_nil, List.append_nil]
  rw [filterMap_render (fun query => Replace (Replace query nameTok u) usernameTok u)]
  rw [hfrag]
  rw [show List.filter (fun q => !(q.length == 0))
        [revokeHead ++ nameTok ++ atSuffix, dropHead ++ nameTok ++ atSuffix] =
      [revokeHead ++ nameTok ++ atSuffix, dropHead ++ nameTok ++ atSuffix]
    from by decide]
  rw [List.map_cons, List.map_cons, List.map_nil]
  rw [hsub1, hsub2]

/-- Claim C9: DeleteUser with an empty statement list runs the built-in
default revocation-and-drop template — REVOKE ALL PRIVILEGES, GRANT OPTION
then DROP USER — with every name and username placeholder replaced by the
target username (and nothing else substituted): the rendered sequence is
exactly the two queries below, and a successful call applies exactly
them.  The hypothesis excludes usernames containing the placeholder opening
brace, for which the textual substitution would rewrite the username
itself. -/
theorem claim_C9_default_revocation (u : Str) (hu : braceOpen ∉ u) :
    renderDeleteAll [defaultMysqlRevocationStmts] u =
        [revokeHead ++ u ++ atSuffix, dropHead ++ u ++ atSuffix] ∧
      ∀ b : Backend, b.connOk = true → b.beginOk = true → b.commitOk = true →
        b.execDirect (revokeHead ++ u ++ atSuffix) = true →
        b.execDirect (dropHead ++ u ++ atSuffix) = true →
        DeleteUser b ⟨u, []⟩ =
          (.ok (), ⟨false, true, true,
            [revokeHead ++ u ++ atSuffix, dropHead ++ u ++ atSuffix]⟩) := by
  have hren : renderDeleteAll (deleteStmtsOf ⟨u, []⟩) u =
      [revokeHead ++ u ++ atSuffix, dropHead ++ u ++ atSuffix] :=
    renderDefaultRevocation u hu
  refine ⟨renderDefaultRevocation u hu, ?_⟩
  intro b hc hb hk h1 h2
  have hall : ∀ q ∈ renderDeleteAll (deleteStmtsOf ⟨u, []⟩) u,
      b.execDirect q = true := by
    rw [hren]
    intro q hq
    rcases List.mem_cons.mp hq with hq1 | hq2
    · rw [hq1]; exact h1
    · rw [List.mem_singleton.mp hq2]; exact h2
  have h := deleteUser_happy b ⟨u, []⟩ hc hb hk hall
  rw [hren] at h
  exact h

/-- Witness for claim C9: a concrete DeleteUser with an empty statement
list on an all-succeeding backend applies exactly the two default
revocation queries with the username substituted. -/
theorem claim_C9_witness :
    DeleteUser allOkBackend ⟨("testuser").data, []⟩ =
      (.ok (), ⟨false, true, true,
        [("REVOKE ALL PRIVILEGES, GRANT OPTION FROM \x27testuser\x27@\x27%\x27").data,
         ("DROP USER \x27testuser\x27@\x27%\x27").data]⟩) :=
  (claim_C9_default_revocation (("testuser").data) (by decide)).2
    allOkBackend rfl rfl rfl rfl rfl

/-! ## Claim C10: the statement renderer -/

/-- Rotation template of the spec's concrete rendering example. -/
def alterStatement : Str :=
  ("ALTER USER \x27\x7b\x7busername\x7d\x7d\x27@\x27%\x27 IDENTIFIED BY \x27\x7b\x7bpassword\x7d\x7d\x27;").data

/-- Claim C10: rendering splits a template on the semicolon, trims
whitespace, discards empty fragments and substitutes placeholders into the
surviving fragments (first conjunct: the rendered sequence is the
substitution image of trimmed non-empty fragments); a placeholder token
whose leading character does not occur in a string leaves it verbatim
(second conjunct); and the spec's concrete example renders to exactly one
statement with both placeholders substituted and the semicolon and
whitespace stripped (third conjunct). -/
theorem claim_C10_renderer :
    (∀ (tpl : Str) (qm : List (Str × Str)), ∃ frags : List Str,
        renderStmt tpl qm = frags.map (fun f => QueryHelper f qm) ∧
          ∀ f ∈ frags, TrimSpace f = f ∧ f ≠ []) ∧
      (∀ (l : Str) (p0 : Char) (pr sub : Str), p0 ∉ l →
        Replace l (p0 :: pr) sub = l) ∧
      renderStmt alterStatement
          [(usernameKey, ("u1").data), (passwordKey, ("p1").data)] =
        [("ALTER USER \x27u1\x27@\x27%\x27 IDENTIFIED BY \x27p1\x27").data] := by
  refine ⟨?_, ?_, by decide⟩
  · intro tpl qm
    refine ⟨((ParseArbitraryStringSlice tpl semi).map TrimSpace).filter
      (fun q => !(q.length == 0)), ?_, ?_⟩
    · unfold renderStmt
      exact filterMap_render (fun f => QueryHelper f qm) _
    · intro f hf
      rw [List.mem_filter] at hf
      obtain ⟨hmem, hpred⟩ := hf
      rw [List.mem_map] at hmem
      obtain ⟨x, _, hfx⟩ := hmem
      refine ⟨?_, ?_⟩
      · rw [← hfx]; exact trimSpace_idem x
      · intro hfnil
        rw [hfnil] at hpred
        simp at hpred
  · intro l p0 pr sub h
    exact replace_not_mem l p0 pr sub h

/-- Witness for claim C10: a string without the placeholder opening brace
is left verbatim by the substitution primitive. -/
theorem claim_C10_witness :
    Replace (("SELECT 1").data) (braceOpen :: ("\x7bfoo\x7d\x7d").data)
        (("x").data) = ("SELECT 1").data :=
  claim_C10_renderer.2.1 (("SELECT 1").data) braceOpen (("\x7bfoo\x7d\x7d").data)
    (("x").data) (by decide)

end VaultMySQL
